import Mathlib

/-
Shallow embedding of the gateway shard of the Kodcord repository
(src/core/sharding/shard.ts together with src/core/sharding/types.d.ts).

Modelling conventions:
  - JS strings are `List Char`; `null`/`undefined` optional fields are `Option _`.
  - JS numbers used as sequence numbers, intervals and timestamps are `Int`;
    close codes and array indices are `Nat`.
  - Each method of the `Shard` class becomes a pure function from the shard
    state to a new state together with the list of externally visible actions
    it performs (logger calls, websocket calls, method invocations).  The log
    message texts are elided from the actions; only which call happens, and
    with which protocol-relevant arguments, is kept.
  - The runtime timer table (`setInterval`/`clearInterval`) is modelled
    explicitly as a pool of active timers with fresh identifiers, with the
    shard storing at most the handle of the last timer it armed
    (`heart.nodeInterval`), exactly as the class stores the JS timer handle.
-/

namespace Kodcord

/-- Externally visible effects of a shard method, in program order.
`closeInvoked` marks a call of `Shard.close(code, ...)`; `wsClose` the actual
`websocket.close(code, ...)`; `connectInvoked` a call of `Shard.connect()` and
`connectAttempt` the `new WebSocket(...)` it performs when not already open.
The `wsSend*` constructors carry the protocol-relevant payload fields. -/
inductive GAction where
  | logDebug : GAction
  | logInform : GAction
  | logWarn : GAction
  | logThrow : GAction
  | closeInvoked : Nat → GAction
  | wsClose : Nat → GAction
  | wsSendHeartbeat : Option Int → GAction
  | wsSendResume : Int → List Char → GAction
  | wsSendIdentify : GAction
  | connectInvoked : GAction
  | connectAttempt : GAction
deriving DecidableEq

/-- The runtime's table of active interval timers: each entry is an
identifier paired with the interval it was armed with. -/
structure TimerPool where
  active : List (Nat × Int)
  nextId : Nat
deriving DecidableEq

/-- `ShardData` of types.d.ts: `resume_seq : number | null`,
`resume_gateway_url?: string`, `session_id?: string`. -/
structure ShardData where
  resume_seq : Option Int
  session_id : Option (List Char)
  resume_gateway_url : Option (List Char)
deriving DecidableEq

/-- `ShardHeart` of types.d.ts; `nodeInterval` is the stored timer handle. -/
structure ShardHeart where
  interval : Int
  nodeInterval : Option Nat
  lastAck : Option Int
  lastBeat : Option Int
  ack : Bool
deriving DecidableEq

/-- The mutable state of one `Shard`: its session data, heart, the runtime
timer pool, whether `websocket?.readyState === 1` (`isOpen`), and whether a
debug `Logger` was constructed (`options.debug`). -/
structure ShardState where
  data : ShardData
  heart : ShardHeart
  timers : TimerPool
  wsOpen : Bool
  hasLogger : Bool
deriving DecidableEq

/-- A `this.logger?.x(...)` call: performed only when the logger exists. -/
def logIf (hasLogger : Bool) (a : GAction) : List GAction :=
  if hasLogger then [a] else []

/-- `clearInterval(handle)`: removes the timer with that identifier from the
runtime pool; clearing `undefined` (or an already-cleared handle) is a no-op. -/
def clearIntervalFn (h : Option Nat) (t : TimerPool) : TimerPool :=
  { t with active := t.active.filter (fun p => match h with
      | none => true
      | some i => p.1 != i) }

/-- `setInterval(cb, ivl)`: arms a fresh timer and returns its handle. -/
def setIntervalFn (ivl : Int) (t : TimerPool) : Nat × TimerPool :=
  (t.nextId, { active := t.active ++ [(t.nextId, ivl)], nextId := t.nextId + 1 })

/-- `Shard.close(code, reason)` (shard.ts:345-353): clears the heartbeat
timer; if not open, only warns; otherwise debug-logs and closes the socket
with the given code (after which `readyState` is no longer `OPEN`). -/
def closeFn (s : ShardState) (code : Nat) : ShardState × List GAction :=
  let s1 : ShardState := { s with timers := clearIntervalFn s.heart.nodeInterval s.timers }
  if s1.wsOpen then
    ({ s1 with wsOpen := false },
      [GAction.closeInvoked code] ++ logIf s1.hasLogger GAction.logDebug
        ++ [GAction.wsClose code])
  else
    (s1, [GAction.closeInvoked code] ++ logIf s1.hasLogger GAction.logWarn)

/-- Recognizer for a transmitted heartbeat frame. -/
def isHeartbeatSend : GAction → Bool
  | GAction.wsSendHeartbeat _ => true
  | _ => false

/-- `Shard.heartbeat(requested)` (shard.ts:189-209): debug-logs; if
unrequested and the previous heartbeat was not acknowledged, closes with the
zombied-connection code 3010 and returns; otherwise marks the ack pending
when unrequested, records the send time, and transmits the current sequence. -/
def heartbeatFn (s : ShardState) (requested : Bool) (now : Int) :
    ShardState × List GAction :=
  let dbg := logIf s.hasLogger GAction.logDebug
  if !requested && !s.heart.ack then
    let r := closeFn s 3010
    (r.1, dbg ++ r.2)
  else
    let s1 : ShardState :=
      if requested then s else { s with heart := { s.heart with ack := false } }
    let s2 : ShardState := { s1 with heart := { s1.heart with lastBeat := some now } }
    (s2, dbg ++ [GAction.wsSendHeartbeat s2.data.resume_seq])

/-- JS truthiness of an optional string: `undefined`, `null` and the empty
string are falsy; every non-empty string is truthy. -/
def jsTruthy : Option (List Char) → Bool
  | none => false
  | some l => !l.isEmpty

/-- `Shard.resumable` (shard.ts:170-176):
`!!(resume_gateway_url && session_id && resume_seq !== null)`. -/
def resumable (d : ShardData) : Bool :=
  jsTruthy d.resume_gateway_url && jsTruthy d.session_id && d.resume_seq.isSome

/-- The `seq` field of the Resume frame (shard.ts:182): `resume_seq ?? 0`. -/
def resumeFrameSeq (d : ShardData) : Int := d.resume_seq.getD 0

/-- The `session_id` field of the Resume frame (shard.ts:183):
`session_id ?? ""`. -/
def resumeFrameSessionId (d : ShardData) : List Char := d.session_id.getD []

/-- The send action performed by `Shard.resume` (the frame's `token` field is
elided; it is the constant bot credential). -/
def resumeAction (d : ShardData) : GAction :=
  GAction.wsSendResume (resumeFrameSeq d) (resumeFrameSessionId d)

/-- `Shard.resume` (shard.ts:178-187) calls `send` with `force = true` and the
Resume frame; the pair records the force flag and the frame action. -/
def resumeCall (d : ShardData) : Bool × GAction := (true, resumeAction d)

/-- `Shard.connect` (shard.ts:103-129): no-op (with a debug log) when already
open; otherwise clears the pending heartbeat timer handle and opens a new
websocket.  The `ConnectTimeout` wait and the handler registrations carry no
synchronous state change and are elided. -/
def connectFn (s : ShardState) : ShardState × List GAction :=
  if s.wsOpen then
    (s, [GAction.connectInvoked] ++ logIf s.hasLogger GAction.logDebug)
  else
    ({ s with timers := clearIntervalFn s.heart.nodeInterval s.timers },
      [GAction.connectInvoked] ++ logIf s.hasLogger GAction.logDebug
        ++ [GAction.connectAttempt])

/-- `Shard.disconnect` (shard.ts:211-214): informs and closes with the
Shutdown code 3000. -/
def disconnectFn (s : ShardState) : ShardState × List GAction :=
  let r := closeFn s 3000
  (r.1, logIf s.hasLogger GAction.logInform ++ r.2)

/-- `Shard.reconnect` (shard.ts:216-220): informs, disconnects, reconnects. -/
def reconnectFn (s : ShardState) : ShardState × List GAction :=
  let r1 := disconnectFn s
  let r2 := connectFn r1.1
  (r2.1, logIf s.hasLogger GAction.logInform ++ r1.2 ++ r2.2)

/-- `Shard.handleClosed` (shard.ts:294-343): clears the heartbeat timer,
warns, then triages the close code: Shutdown 3000 → nothing; resumable loss
1000/4001/4007/4009 → reset `resume_seq` to `0`, unset `session_id` and
`resume_gateway_url`, reconnect; transient
1001/1006/3010/4000/4002/4003/4005/4008 → inform and reconnect; fatal
4004/4010/4011/4012/4013/4014 → `logger?.throw` and stop; anything else →
warn and reconnect. -/
def handleClosedFn (s : ShardState) (code : Nat) : ShardState × List GAction :=
  let s1 : ShardState := { s with timers := clearIntervalFn s.heart.nodeInterval s.timers }
  let warnA := logIf s1.hasLogger GAction.logWarn
  if code = 3000 then
    (s1, warnA)
  else if code = 1000 ∨ code = 4001 ∨ code = 4007 ∨ code = 4009 then
    let s2 : ShardState := { s1 with data :=
      { s1.data with resume_seq := some 0, session_id := none,
                     resume_gateway_url := none } }
    let r := reconnectFn s2
    (r.1, warnA ++ r.2)
  else if code = 1001 ∨ code = 1006 ∨ code = 3010 ∨ code = 4000 ∨ code = 4002
      ∨ code = 4003 ∨ code = 4005 ∨ code = 4008 then
    let r := reconnectFn s1
    (r.1, warnA ++ logIf s1.hasLogger GAction.logInform ++ r.2)
  else if code = 4004 ∨ code = 4014 ∨ code = 4012 ∨ code = 4013 ∨ code = 4010
      ∨ code = 4011 then
    (s1, warnA ++ logIf s1.hasLogger GAction.logThrow)
  else
    let r := reconnectFn s1
    (r.1, warnA ++ logIf s1.hasLogger GAction.logWarn ++ r.2)

/-- The `Hello` case of `Shard.onpacket` (shard.ts:222-244), including the
`packet.s` preamble: record the sequence when present, debug-log, clear the
existing heartbeat timer, adopt the interval from the payload, send one
unrequested heartbeat, arm the recurring timer and store its handle, then
resume when `resumable`, else identify. -/
def helloFn (s : ShardState) (packetSeq : Option Int) (ivl : Int) (now : Int) :
    ShardState × List GAction :=
  let s0 : ShardState := match packetSeq with
    | some v => { s with data := { s.data with resume_seq := some v } }
    | none => s
  let dbg := logIf s0.hasLogger GAction.logDebug
  let s1 : ShardState := { s0 with timers := clearIntervalFn s0.heart.nodeInterval s0.timers }
  let s2 : ShardState := { s1 with heart := { s1.heart with interval := ivl } }
  let r := heartbeatFn s2 false now
  let st := setIntervalFn r.1.heart.interval r.1.timers
  let s3 : ShardState := { r.1 with timers := st.2 }
  let s4 : ShardState := { s3 with heart := { s3.heart with nodeInterval := some st.1 } }
  (s4, dbg ++ r.2 ++
    [if resumable s4.data then resumeAction s4.data else GAction.wsSendIdentify])

/-- `Shard.checkOffline(force)` queue discipline (shard.ts:370-375): while the
socket is not open the pending continuation is `unshift`ed (prepended) when
`force` and `push`ed (appended) otherwise.  Entries are tagged with their
force class and an enqueue index. -/
def offlineEnqueue (force : Bool) (idx : Nat) (q : List (Bool × Nat)) :
    List (Bool × Nat) :=
  if force then (force, idx) :: q else q ++ [(force, idx)]

/-- The offline queue produced by a sequence of offline `send(force, _)`
calls, in call order; the Ready/Resumed flush (shard.ts:274, 281) releases the
continuations in the order of this list. -/
def offlineQueueOf (msgs : List (Bool × Nat)) : List (Bool × Nat) :=
  msgs.foldl (fun q m => offlineEnqueue m.1 m.2 q) []

/-- Ceiling division on naturals, the value `Math.ceil(a / b)` computes for
natural `a` and positive natural `b`. -/
def ceilDivNat (a b : Nat) : Nat := (a + b - 1) / b

/-- `Shard.calculateSafeRequests` (shard.ts:377-386):
`maxRequestsPerRateLimitTick - ceil(rateLimitResetInterval / heart.interval) * 2`,
clamped below at zero. -/
def calculateSafeRequests (maxReq reset hbIvl : Nat) : Nat :=
  let safe : Int := (maxReq : Int) - (ceilDivNat reset hbIvl : Int) * 2
  if safe < 0 then 0 else safe.toNat

/-- The heartbeat interval at `Shard` construction time: the `heart` field
initializer sets `interval: 30e3` before the constructor body runs. -/
def constructionHeartInterval : Nat := 30000

/-- The `Bucket` capacity computed in the `Shard` constructor (shard.ts:68-69):
`calculateSafeRequests` evaluated at the construction-time heart interval. -/
def shardConstructionCapacity (maxReq reset : Nat) : Nat :=
  calculateSafeRequests maxReq reset constructionHeartInterval

/-- Mask characters, `"*".repeat n`. -/
def stars (n : Nat) : List Char := List.replicate n '*'

/-- JS `String.prototype.split(".")` on a character list. -/
def splitDot : List Char → List (List Char)
  | [] => [[]]
  | c :: r =>
    if c = '.' then [] :: splitDot r
    else
      match splitDot r with
      | [] => [[c]]
      | h :: t => (c :: h) :: t

/-- The redacted form of the matched token (shard.ts:141-142):
`SPLIT[0] + "." + "*".repeat(SPLIT[1].length) + "." + "*".repeat(SPLIT[2].length)`
where `SPLIT = v.split(".")`.  The source assumes a three-segment token (it
indexes `SPLIT[1]` and `SPLIT[2]` unconditionally); missing segments are
totalized as empty. -/
def maskToken (tok : List Char) : List Char :=
  let parts := splitDot tok
  (parts.getD 0 []) ++ '.' :: stars (parts.getD 1 []).length
    ++ '.' :: stars (parts.getD 2 []).length

/-- Fuelled scanner for JS `String.prototype.replaceAll` with a constant
pattern: at each position, if the pattern matches, emit the replacement and
continue after the match, otherwise keep the character.  Fuel at least the
length of the input makes the fuel irrelevant. -/
def replaceAllGo (pat rep : List Char) : Nat → List Char → List Char
  | 0, l => l
  | _ + 1, [] => []
  | fuel + 1, c :: r =>
    if pat.isPrefixOf (c :: r) then
      rep ++ replaceAllGo pat rep fuel (List.drop pat.length (c :: r))
    else
      c :: replaceAllGo pat rep fuel r

/-- The token-redaction transform `Shard.send` applies to each string value
of the logged payload (shard.ts:139-144):
`value.replaceAll(token, v => mask)` where the mask is computed from the
matched substring, which is always the token itself. -/
def redactValue (token value : List Char) : List Char :=
  replaceAllGo token (maskToken token) value.length value

/-- Session state with all three fields set but an empty session id string. -/
def c4cex : ShardData := ⟨some 3, some [], some ['u']⟩

/-- Shard state with an unacknowledged heartbeat and an open socket. -/
def c5state : ShardState :=
  ⟨⟨some 7, none, none⟩, ⟨30000, none, none, none, false⟩, ⟨[], 0⟩, true, false⟩

/-- Shard state with session data set, open socket, debug logging off. -/
def c2cex : ShardState :=
  ⟨⟨some 5, some ['s'], some ['u']⟩, ⟨30000, none, none, none, true⟩, ⟨[], 0⟩,
    true, false⟩

/-- Shard state with debug logging disabled. -/
def c6cex : ShardState :=
  ⟨⟨some 5, some ['s'], some ['u']⟩, ⟨30000, none, none, none, true⟩, ⟨[], 0⟩,
    true, false⟩

/-- Quiescent shard state with no active timer. -/
def c7state : ShardState :=
  ⟨⟨none, none, none⟩, ⟨30000, none, none, none, true⟩, ⟨[], 0⟩, false, false⟩

/-- Session state with no sequence and no session id. -/
def c10d1 : ShardData := ⟨none, none, none⟩

/-- Session state with sequence 5 and a one-character session id. -/
def c10d2 : ShardData := ⟨some 5, some ['s'], some ['u']⟩

/-- Shard state with session data set, open socket, debug logging on. -/
def c6wit : ShardState :=
  ⟨⟨none, none, none⟩, ⟨30000, none, none, none, true⟩, ⟨[], 0⟩, true, true⟩

/-- The at-most-one-heartbeat-timer invariant: the pool holds at most one
active timer, and every active timer is the one whose handle the shard
stores in `heart.nodeInterval`. -/
def TimerInv (s : ShardState) : Prop :=
  s.timers.active.length ≤ 1 ∧
  ∀ p ∈ s.timers.active, some p.1 = s.heart.nodeInterval

/- ------------------------------------------------------------------ -/
/- Helper lemmas                                                      -/
/- ------------------------------------------------------------------ -/

lemma ceil_cast_div (a b : Nat) (hb : 0 < b) :
    ⌈(a : ℚ) / (b : ℚ)⌉ = ((ceilDivNat a b : Nat) : ℤ) := by
  unfold ceilDivNat
  have h1 := Nat.div_add_mod (a + b - 1) b
  have h2 := Nat.mod_lt (a + b - 1) hb
  set k : Nat := (a + b - 1) / b with hkdef
  have hk1 : a ≤ b * k := by omega
  have hk2 : b * k < a + b := by omega
  have hbq : (0 : ℚ) < (b : ℚ) := by exact_mod_cast hb
  rw [Int.ceil_eq_iff]
  have hk1q : (a : ℚ) ≤ (b : ℚ) * (k : ℚ) := by exact_mod_cast hk1
  have hk2q : (b : ℚ) * (k : ℚ) < (a : ℚ) + (b : ℚ) := by exact_mod_cast hk2
  constructor
  · rw [lt_div_iff₀ hbq]
    push_cast
    linarith
  · rw [div_le_iff₀ hbq]
    push_cast
    linarith

lemma jsTruthy_iff (o : Option (List Char)) :
    jsTruthy o = true ↔ ∃ u, o = some u ∧ u ≠ [] := by
  cases o with
  | none => simp [jsTruthy]
  | some l => cases l <;> simp [jsTruthy]

lemma offlineQueue_foldl (msgs : List (Bool × Nat)) (q : List (Bool × Nat)) :
    msgs.foldl (fun acc m => offlineEnqueue m.1 m.2 acc) q =
      (msgs.filter (fun m => m.1)).reverse ++ q ++ msgs.filter (fun m => !m.1) := by
  induction msgs generalizing q with
  | nil => simp
  | cons m rest ih =>
    obtain ⟨f, i⟩ := m
    rw [List.foldl_cons, ih]
    cases f
    · have he : offlineEnqueue false i q = q ++ [(false, i)] := rfl
      rw [he]
      simp [List.filter_cons, List.append_assoc]
    · have he : offlineEnqueue true i q = (true, i) :: q := rfl
      rw [he]
      simp [List.filter_cons, List.append_assoc]

lemma clear_active_nil (h : Option Nat) (t : TimerPool) (ht : t.active = []) :
    (clearIntervalFn h t).active = [] := by
  simp [clearIntervalFn, ht]

lemma timerInv_clear (s : ShardState) (hInv : TimerInv s) :
    (clearIntervalFn s.heart.nodeInterval s.timers).active = [] := by
  obtain ⟨hlen, hall⟩ := hInv
  rcases ht : s.timers.active with _ | ⟨p, rest⟩
  · simp [clearIntervalFn, ht]
  · have hrest : rest = [] := by
      rw [ht] at hlen
      simp only [List.length_cons] at hlen
      have : rest.length = 0 := by omega
      exact List.length_eq_zero.mp this
    subst hrest
    have hp := hall p (by rw [ht]; exact List.mem_cons_self p [])
    rcases hh : s.heart.nodeInterval with _ | j
    · rw [hh] at hp
      exact absurd hp (by simp)
    · rw [hh] at hp
      have hpj : p.1 = j := Option.some.inj hp
      simp [clearIntervalFn, ht, hh, List.filter, hpj]

lemma active_nil_inv (s : ShardState) (h : s.timers.active = []) : TimerInv s := by
  constructor
  · simp [h]
  · intro p hp
    rw [h] at hp
    exact absurd hp (List.not_mem_nil p)

lemma closeFn_timers (s : ShardState) (code : Nat) :
    ((closeFn s code).1).timers = clearIntervalFn s.heart.nodeInterval s.timers ∧
    ((closeFn s code).1).heart = s.heart ∧
    ((closeFn s code).1).data = s.data := by
  cases hws : s.wsOpen <;> simp [closeFn, hws]

lemma connectFn_active_nil (s : ShardState) (h : s.timers.active = []) :
    ((connectFn s).1).timers.active = [] := by
  cases hws : s.wsOpen <;> simp [connectFn, clearIntervalFn, hws, h]

lemma reconnectFn_active_nil (s : ShardState) (h : s.timers.active = []) :
    ((reconnectFn s).1).timers.active = [] := by
  have h1 : ((closeFn s 3000).1).timers.active = [] := by
    rw [(closeFn_timers s 3000).1]
    exact clear_active_nil _ _ h
  have h2 := connectFn_active_nil ((closeFn s 3000).1) h1
  simpa [reconnectFn, disconnectFn] using h2

lemma handleClosedFn_inv (s : ShardState) (code : Nat) (hInv : TimerInv s) :
    TimerInv (handleClosedFn s code).1 := by
  have hnil := timerInv_clear s hInv
  simp only [handleClosedFn]
  split_ifs <;>
    first
      | exact active_nil_inv _ (by simpa using hnil)
      | exact active_nil_inv _ (reconnectFn_active_nil _ (by simpa using hnil))

lemma helloFn_timers (s : ShardState) (ps : Option Int) (ivl now : Int)
    (hInv : TimerInv s) :
    ((helloFn s ps ivl now).1).timers.active = [(s.timers.nextId, ivl)] ∧
    ((helloFn s ps ivl now).1).heart.nodeInterval = some s.timers.nextId := by
  have hclr : (clearIntervalFn s.heart.nodeInterval s.timers).active = [] :=
    timerInv_clear s hInv
  obtain ⟨⟨rs, sid, url⟩, ⟨hrtIvl, hnode, hla, hlb, ack⟩, ⟨tact, tnext⟩, ws, lg⟩ := s
  simp only [clearIntervalFn] at hclr
  cases ps <;> cases ack <;> cases ws <;> cases lg <;>
    simp [helloFn, heartbeatFn, closeFn, setIntervalFn, clearIntervalFn, logIf,
      hclr]

lemma splitDot_nodot (s : List Char) (h : ∀ c ∈ s, c ≠ '.') :
    splitDot s = [s] := by
  induction s with
  | nil => rfl
  | cons c r ih =>
    have hc : c ≠ '.' := h c (List.mem_cons_self c r)
    have hr := ih (fun x hx => h x (List.mem_cons_of_mem c hx))
    simp [splitDot, hc, hr]

lemma splitDot_append_dot (s r : List Char) (h : ∀ c ∈ s, c ≠ '.') :
    splitDot (s ++ '.' :: r) = s :: splitDot r := by
  induction s with
  | nil => simp [splitDot]
  | cons c s' ih =>
    have hc : c ≠ '.' := h c (List.mem_cons_self c s')
    have ih' := ih (fun x hx => h x (List.mem_cons_of_mem c hx))
    simp [splitDot, hc, ih']

lemma maskToken_segments (s0 s1 s2 : List Char)
    (h0 : ∀ c ∈ s0, c ≠ '.') (h1 : ∀ c ∈ s1, c ≠ '.') (h2 : ∀ c ∈ s2, c ≠ '.') :
    maskToken (s0 ++ '.' :: s1 ++ '.' :: s2) =
      s0 ++ '.' :: stars s1.length ++ '.' :: stars s2.length := by
  unfold maskToken
  have hsh : s0 ++ '.' :: s1 ++ '.' :: s2 = s0 ++ '.' :: (s1 ++ '.' :: s2) := by
    simp [List.append_assoc]
  rw [hsh, splitDot_append_dot s0 _ h0, splitDot_append_dot s1 s2 h1,
    splitDot_nodot s2 h2]
  simp [List.append_assoc]

lemma isPrefixOf_self_append (pat b : List Char) :
    pat.isPrefixOf (pat ++ b) = true := by
  induction pat with
  | nil => simp [List.isPrefixOf]
  | cons c p ih => simp [List.isPrefixOf, ih]

lemma isPrefixOf_head_ne (p : Char) (ps l : List Char) (c : Char) (hc : c ≠ p) :
    (p :: ps).isPrefixOf (c :: l) = false := by
  simp [List.isPrefixOf]
  intro h
  exact absurd h.symm hc

lemma go_congr (p : Char) (ps rep : List Char) :
    ∀ (f1 : Nat) (l : List Char) (f2 : Nat), l.length ≤ f1 → l.length ≤ f2 →
      replaceAllGo (p :: ps) rep f1 l = replaceAllGo (p :: ps) rep f2 l := by
  intro f1
  induction f1 with
  | zero =>
    intro l f2 h1 h2
    have hl : l = [] := by
      cases l
      · rfl
      · simp at h1
    subst hl
    cases f2 <;> rfl
  | succ f ih =>
    intro l f2 h1 h2
    cases l with
    | nil => cases f2 <;> rfl
    | cons c r =>
      cases f2 with
      | zero => simp at h2
      | succ g =>
        simp only [replaceAllGo]
        by_cases hpre : (p :: ps).isPrefixOf (c :: r) = true
        · rw [if_pos hpre, if_pos hpre]
          have hlen : (List.drop (p :: ps).length (c :: r)).length ≤ f := by
            simp only [List.length_cons] at h1
            simp only [List.length_drop, List.length_cons]
            omega
          have hlen2 : (List.drop (p :: ps).length (c :: r)).length ≤ g := by
            simp only [List.length_cons] at h2
            simp only [List.length_drop, List.length_cons]
            omega
          rw [ih _ _ hlen hlen2]
        · rw [if_neg hpre, if_neg hpre]
          have hr1 : r.length ≤ f := by
            simp only [List.length_cons] at h1
            omega
          have hr2 : r.length ≤ g := by
            simp only [List.length_cons] at h2
            omega
          rw [ih _ _ hr1 hr2]

lemma go_skip (p : Char) (ps rep : List Char) :
    ∀ (l : List Char) (f : Nat), l.length ≤ f → (∀ c ∈ l, c ≠ p) →
      replaceAllGo (p :: ps) rep f l = l := by
  intro l
  induction l with
  | nil =>
    intro f _ _
    cases f <;> rfl
  | cons c r ih =>
    intro f hf hfree
    cases f with
    | zero => rfl
    | succ g =>
      have hpre := isPrefixOf_head_ne p ps r c (hfree c (List.mem_cons_self c r))
      simp only [replaceAllGo, hpre, Bool.false_eq_true, if_false]
      have hr : r.length ≤ g := by
        simp only [List.length_cons] at hf
        omega
      rw [ih g hr (fun x hx => hfree x (List.mem_cons_of_mem c hx))]

lemma go_free_append (p : Char) (ps rep : List Char) :
    ∀ (a l : List Char) (f : Nat), (a ++ l).length ≤ f → (∀ c ∈ a, c ≠ p) →
      replaceAllGo (p :: ps) rep f (a ++ l) =
        a ++ replaceAllGo (p :: ps) rep f l := by
  intro a
  induction a with
  | nil =>
    intro l f _ _
    simp
  | cons c a' ih =>
    intro l f hf hfree
    cases f with
    | zero =>
      simp only [List.length_append, List.length_cons] at hf
      omega
    | succ g =>
      have hpre := isPrefixOf_head_ne p ps (a' ++ l) c
        (hfree c (List.mem_cons_self c a'))
      simp only [List.cons_append, replaceAllGo, List.append_eq, hpre,
        Bool.false_eq_true, if_false]
      have hlen : (a' ++ l).length ≤ g := by
        simp only [List.length_append, List.length_cons] at hf
        simp only [List.length_append]
        omega
      rw [ih l g hlen (fun x hx => hfree x (List.mem_cons_of_mem c hx))]
      have hl : l.length ≤ g := by
        simp only [List.length_append] at hlen
        omega
      rw [go_congr p ps rep g l (g + 1) hl (by omega)]

lemma go_match_append (p : Char) (ps rep b : List Char) (f : Nat)
    (hf : ((p :: ps) ++ b).length ≤ f) :
    replaceAllGo (p :: ps) rep f ((p :: ps) ++ b) =
      rep ++ replaceAllGo (p :: ps) rep f b := by
  cases f with
  | zero =>
    simp only [List.length_append, List.length_cons] at hf
    omega
  | succ g =>
    have hpre := isPrefixOf_self_append (p :: ps) b
    simp only [List.cons_append] at hpre
    simp only [List.cons_append, replaceAllGo, List.append_eq, hpre, if_true]
    have hd : List.drop (p :: ps).length (p :: (ps ++ b)) = b := by
      have h := List.drop_left (p :: ps) b
      simp only [List.cons_append] at h
      exact h
    rw [hd]
    have hb : b.length ≤ g := by
      simp only [List.length_append, List.length_cons] at hf
      omega
    rw [go_congr p ps rep g b (g + 1) hb (by omega)]

lemma redact_occurrence (p : Char) (ts a b mask : List Char)
    (ha : ∀ c ∈ a, c ≠ p) (hb : ∀ c ∈ b, c ≠ p) :
    replaceAllGo (p :: ts) mask (a ++ ((p :: ts) ++ b)).length
        (a ++ ((p :: ts) ++ b)) = a ++ (mask ++ b) := by
  have hlen1 : ((p :: ts) ++ b).length ≤ (a ++ ((p :: ts) ++ b)).length := by
    simp only [List.length_append, List.length_cons]
    omega
  have hlenb : b.length ≤ (a ++ ((p :: ts) ++ b)).length := by
    simp only [List.length_append, List.length_cons]
    omega
  rw [go_free_append p ts mask a ((p :: ts) ++ b) _ le_rfl ha,
    go_match_append p ts mask b _ hlen1,
    go_skip p ts mask b _ hlenb hb]

lemma redact_token_context (s0 s1 s2 a b : List Char)
    (hne : s0 ≠ [])
    (h0 : ∀ c ∈ s0, c ≠ '.') (h1 : ∀ c ∈ s1, c ≠ '.') (h2 : ∀ c ∈ s2, c ≠ '.')
    (ha : ∀ c ∈ a, some c ≠ s0.head?) (hb : ∀ c ∈ b, some c ≠ s0.head?) :
    redactValue (s0 ++ '.' :: s1 ++ '.' :: s2)
        (a ++ (s0 ++ '.' :: s1 ++ '.' :: s2) ++ b) =
      a ++ (s0 ++ '.' :: stars s1.length ++ '.' :: stars s2.length) ++ b := by
  obtain ⟨p, s0t, rfl⟩ := List.exists_cons_of_ne_nil hne
  have ha' : ∀ c ∈ a, c ≠ p := by
    intro c hc he
    exact (ha c hc) (by rw [he, List.head?_cons])
  have hb' : ∀ c ∈ b, c ≠ p := by
    intro c hc he
    exact (hb c hc) (by rw [he, List.head?_cons])
  have hmask := maskToken_segments (p :: s0t) s1 s2 h0 h1 h2
  have hts : (p :: s0t) ++ '.' :: s1 ++ '.' :: s2
      = p :: (s0t ++ '.' :: s1 ++ '.' :: s2) := by
    simp [List.append_assoc]
  unfold redactValue
  rw [hmask, hts]
  have key := redact_occurrence p (s0t ++ '.' :: s1 ++ '.' :: s2) a b
    ((p :: s0t) ++ '.' :: stars s1.length ++ '.' :: stars s2.length) ha' hb'
  rw [← List.append_assoc a (p :: (s0t ++ '.' :: s1 ++ '.' :: s2)) b] at key
  rw [← List.append_assoc a
    ((p :: s0t) ++ '.' :: stars s1.length ++ '.' :: stars s2.length) b] at key
  exact key

/- ------------------------------------------------------------------ -/
/- Claim theorems                                                     -/
/- ------------------------------------------------------------------ -/

/-- C1 (amended): among the messages enqueued while the socket is not open,
every force message is flushed before every non-force message regardless of
enqueue order, and the non-force messages keep their FIFO order; the force
messages, however, are flushed in LIFO order (the reverse of their enqueue
order), because each force enqueue prepends to the queue. -/
theorem c1_offline_queue_order (msgs : List (Bool × Nat)) :
    offlineQueueOf msgs =
      (msgs.filter (fun m => m.1)).reverse ++ msgs.filter (fun m => !m.1) := by
  have h := offlineQueue_foldl msgs []
  simpa [offlineQueueOf] using h

/-- C1 counterexample: two force messages enqueued in order 1 then 2 are
flushed in order 2 then 1, so within the force class the flush order is not
the FIFO enqueue order the claim states. -/
theorem c1_counterexample :
    offlineQueueOf [(true, 1), (true, 2)] = [(true, 2), (true, 1)] ∧
    (offlineQueueOf [(true, 1), (true, 2)]).filter (fun m => m.1) ≠
      ([(true, 1), (true, 2)] : List (Bool × Nat)).filter (fun m => m.1) := by
  decide

/-- C3: for every rate-limit configuration, the bucket capacity computed at
Shard construction equals max(0, maxRequestsPerRateLimitTick −
ceil(rateLimitResetInterval / heartbeatInterval) × 2), where the
construction-time heartbeat interval is 30000 ms; in particular the defaults
120 and 60000 yield capacity 116. -/
theorem c3_construction_capacity :
    (∀ maxReq reset : Nat,
      (shardConstructionCapacity maxReq reset : ℤ) =
        max 0 ((maxReq : ℤ)
          - ⌈(reset : ℚ) / (constructionHeartInterval : ℚ)⌉ * 2)) ∧
    shardConstructionCapacity 120 60000 = 116 := by
  constructor
  · intro maxReq reset
    have hceil : ⌈(reset : ℚ) / (constructionHeartInterval : ℚ)⌉
        = ((ceilDivNat reset constructionHeartInterval : Nat) : ℤ) :=
      ceil_cast_div reset constructionHeartInterval
        (by norm_num [constructionHeartInterval])
    rw [hceil]
    unfold shardConstructionCapacity calculateSafeRequests
    set k : Nat := ceilDivNat reset constructionHeartInterval with hk
    by_cases hneg : (maxReq : ℤ) - (k : ℤ) * 2 < 0
    · rw [if_pos hneg, max_eq_left (le_of_lt hneg)]
      simp
    · rw [if_neg hneg]
      push_neg at hneg
      rw [max_eq_right hneg, Int.toNat_of_nonneg hneg]
  · decide

/-- C4 (amended): resumable returns true iff the resume URL and the session id
are both set to non-empty strings and the resume sequence is non-null; a field
set to the empty string counts as missing, by JS truthiness. -/
theorem c4_resumable_iff (d : ShardData) :
    resumable d = true ↔
      ((∃ u, d.resume_gateway_url = some u ∧ u ≠ []) ∧
       (∃ i, d.session_id = some i ∧ i ≠ []) ∧
       d.resume_seq ≠ none) := by
  simp [resumable, jsTruthy_iff, Option.isSome_iff_ne_none, and_assoc]

/-- C4 counterexample: a session state whose three fields are all set — the
session id being the empty string — has resumable = false, refuting the claim
that resumable is true whenever all three are set. -/
theorem c4_counterexample :
    (c4cex.resume_gateway_url ≠ none ∧ c4cex.session_id ≠ none ∧
     c4cex.resume_seq ≠ none) ∧ resumable c4cex = false := by
  decide

/-- C5: an unrequested heartbeat issued while the previous heartbeat is
unacknowledged invokes close with the zombied-connection code 3010 (closing
the socket when it is open) and transmits no heartbeat frame. -/
theorem c5_zombied_close (s : ShardState) (now : Int)
    (hack : s.heart.ack = false) :
    GAction.closeInvoked 3010 ∈ (heartbeatFn s false now).2 ∧
    (s.wsOpen = true → GAction.wsClose 3010 ∈ (heartbeatFn s false now).2) ∧
    (heartbeatFn s false now).2.any isHeartbeatSend = false := by
  cases hws : s.wsOpen <;> cases hlog : s.hasLogger <;>
    simp [heartbeatFn, closeFn, logIf, isHeartbeatSend, hack, hws, hlog]

theorem c5_zombied_close_witness :
    GAction.closeInvoked 3010 ∈ (heartbeatFn c5state false 0).2 ∧
    GAction.wsClose 3010 ∈ (heartbeatFn c5state false 0).2 ∧
    (heartbeatFn c5state false 0).2.any isHeartbeatSend = false :=
  ⟨(c5_zombied_close c5state 0 rfl).1,
   (c5_zombied_close c5state 0 rfl).2.1 rfl,
   (c5_zombied_close c5state 0 rfl).2.2⟩

/-- C9: a requested heartbeat leaves heart.ack unchanged, and an unrequested
heartbeat performed right after it transmits a heartbeat frame exactly when
the ack flag was already set beforehand — so a server-requested heartbeat can
never, by itself, make a subsequent unrequested heartbeat take the
zombied-connection path. -/
theorem c9_requested_preserves_ack (s : ShardState) (n1 n2 : Int) :
    ((heartbeatFn s true n1).1).heart.ack = s.heart.ack ∧
    ((heartbeatFn ((heartbeatFn s true n1).1) false n2).2.any isHeartbeatSend)
      = s.heart.ack := by
  cases hack : s.heart.ack <;> cases hws : s.wsOpen <;> cases hlog : s.hasLogger <;>
    simp [heartbeatFn, closeFn, logIf, isHeartbeatSend, hack, hws, hlog]

/-- C10: resume always produces a Resume frame, sent with force = true, whose
seq field is the stored resume sequence when it is non-null and 0 otherwise,
and whose session_id field is the stored session id when set and the empty
string otherwise. -/
theorem c10_resume_frame (d : ShardData) :
    (d.resume_seq = none → resumeFrameSeq d = 0) ∧
    (∀ n : Int, d.resume_seq = some n → resumeFrameSeq d = n) ∧
    (d.session_id = none → resumeFrameSessionId d = []) ∧
    (∀ i : List Char, d.session_id = some i → resumeFrameSessionId d = i) ∧
    resumeCall d =
      (true, GAction.wsSendResume (resumeFrameSeq d) (resumeFrameSessionId d)) := by
  refine ⟨?_, ?_, ?_, ?_, rfl⟩
  · intro h
    simp [resumeFrameSeq, h]
  · intro n h
    simp [resumeFrameSeq, h]
  · intro h
    simp [resumeFrameSessionId, h]
  · intro i h
    simp [resumeFrameSessionId, h]

/-- C8 (amended): within a logged string value, an occurrence of the
configured token s0.s1.s2 is replaced by s0, a dot, |s1| mask characters, a
dot and |s2| mask characters; consequently two tokens sharing the same first
segment and the same second- and third-segment lengths produce identical log
output for corresponding messages — messages equal up to substituting one
token for the other — the redacted occurrence depending only on s0, |s1| and
|s2|.  (For literally identical messages the outputs can differ, since only
the configured token is matched; see the counterexample.) -/
theorem c8_redaction (s0 s1 s2 s1' s2' a b : List Char)
    (hne : s0 ≠ [])
    (h0 : ∀ c ∈ s0, c ≠ '.') (h1 : ∀ c ∈ s1, c ≠ '.') (h2 : ∀ c ∈ s2, c ≠ '.')
    (h1' : ∀ c ∈ s1', c ≠ '.') (h2' : ∀ c ∈ s2', c ≠ '.')
    (hl1 : s1.length = s1'.length) (hl2 : s2.length = s2'.length)
    (ha : ∀ c ∈ a, some c ≠ s0.head?) (hb : ∀ c ∈ b, some c ≠ s0.head?) :
    redactValue (s0 ++ '.' :: s1 ++ '.' :: s2)
        (a ++ (s0 ++ '.' :: s1 ++ '.' :: s2) ++ b)
      = a ++ (s0 ++ '.' :: stars s1.length ++ '.' :: stars s2.length) ++ b ∧
    redactValue (s0 ++ '.' :: s1' ++ '.' :: s2')
        (a ++ (s0 ++ '.' :: s1' ++ '.' :: s2') ++ b)
      = a ++ (s0 ++ '.' :: stars s1.length ++ '.' :: stars s2.length) ++ b := by
  constructor
  · exact redact_token_context s0 s1 s2 a b hne h0 h1 h2 ha hb
  · have h := redact_token_context s0 s1' s2' a b hne h0 h1' h2' ha hb
    rw [← hl1, ← hl2] at h
    exact h

theorem c8_redaction_witness :
    redactValue (['a'] ++ '.' :: ['b', 'b'] ++ '.' :: ['c', 'c'])
        (['B', 'o', 't', ' ']
          ++ (['a'] ++ '.' :: ['b', 'b'] ++ '.' :: ['c', 'c']) ++ ['!'])
      = ['B', 'o', 't', ' '] ++ (['a'] ++ '.' :: stars 2 ++ '.' :: stars 2)
          ++ ['!'] ∧
    redactValue (['a'] ++ '.' :: ['d', 'd'] ++ '.' :: ['e', 'e'])
        (['B', 'o', 't', ' ']
          ++ (['a'] ++ '.' :: ['d', 'd'] ++ '.' :: ['e', 'e']) ++ ['!'])
      = ['B', 'o', 't', ' '] ++ (['a'] ++ '.' :: stars 2 ++ '.' :: stars 2)
          ++ ['!'] := by
  have h := c8_redaction ['a'] ['b', 'b'] ['c', 'c'] ['d', 'd'] ['e', 'e']
    ['B', 'o', 't', ' '] ['!'] (by decide) (by decide) (by decide) (by decide)
    (by decide) (by decide) (by decide) (by decide) (by decide) (by decide)
  simpa using h

/-- C8 counterexample: the two tokens a.bb.cc and a.dd.ee share the first
segment and the lengths of the second and third segments, yet on the literally
identical message value containing a.bb.cc the produced log outputs differ —
the token of the shard that owns a.dd.ee matches nothing — refuting the claim
that such token pairs yield identical log output for the same message. -/
theorem c8_counterexample :
    (['a', '.', 'b', 'b', '.', 'c', 'c'] : List Char)
        = ['a'] ++ '.' :: ['b', 'b'] ++ '.' :: ['c', 'c'] ∧
    (['a', '.', 'd', 'd', '.', 'e', 'e'] : List Char)
        = ['a'] ++ '.' :: ['d', 'd'] ++ '.' :: ['e', 'e'] ∧
    (['b', 'b'] : List Char).length = (['d', 'd'] : List Char).length ∧
    (['c', 'c'] : List Char).length = (['e', 'e'] : List Char).length ∧
    redactValue ['a', '.', 'b', 'b', '.', 'c', 'c']
        ['B', 'o', 't', ' ', 'a', '.', 'b', 'b', '.', 'c', 'c']
      ≠ redactValue ['a', '.', 'd', 'd', '.', 'e', 'e']
        ['B', 'o', 't', ' ', 'a', '.', 'b', 'b', '.', 'c', 'c'] := by
  decide

/-- C2 (amended): for every shard state and every close code in the
resumable-loss class (1000, 4001 unknown-opcode, 4007 invalid-sequence, 4009
session-timed-out), the close handler unsets sessionId and resumeURL and
resets resumeSequence to 0 — a non-null sentinel, not the cleared null state —
before reconnect runs (which performs a connect call). -/
theorem c2_resumable_loss_clears (s : ShardState) (code : Nat)
    (h : code = 1000 ∨ code = 4001 ∨ code = 4007 ∨ code = 4009) :
    (handleClosedFn s code).1.data.session_id = none ∧
    (handleClosedFn s code).1.data.resume_gateway_url = none ∧
    (handleClosedFn s code).1.data.resume_seq = some 0 ∧
    GAction.connectInvoked ∈ (handleClosedFn s code).2 := by
  rcases h with rfl | rfl | rfl | rfl <;>
    cases hws : s.wsOpen <;> cases hlog : s.hasLogger <;>
      simp [handleClosedFn, reconnectFn, disconnectFn, connectFn, closeFn,
        logIf, hws, hlog]

theorem c2_resumable_loss_clears_witness :
    (handleClosedFn c2cex 1000).1.data.session_id = none ∧
    (handleClosedFn c2cex 1000).1.data.resume_gateway_url = none ∧
    (handleClosedFn c2cex 1000).1.data.resume_seq = some 0 ∧
    GAction.connectInvoked ∈ (handleClosedFn c2cex 1000).2 :=
  c2_resumable_loss_clears c2cex 1000 (Or.inl rfl)

/-- C2 counterexample: after a close with the resumable-loss code 1000, the
stored resume sequence is 0 rather than the cleared (null) state the claim
requires for all three fields. -/
theorem c2_counterexample :
    (handleClosedFn c2cex 1000).1.data.resume_seq ≠ none ∧
    (handleClosedFn c2cex 1000).1.data.resume_seq = some 0 := by
  decide

/-- C6 (amended): after a close with a fatal-class code (4004, 4010-4014) the
shard performs no connect call and no reconnect; the terminal error is
reported through the debug logger exactly when one is configured — with debug
logging disabled the fatal close produces no report at all. -/
theorem c6_fatal_no_reconnect (s : ShardState) (code : Nat)
    (h : code = 4004 ∨ code = 4010 ∨ code = 4011 ∨ code = 4012 ∨
         code = 4013 ∨ code = 4014) :
    GAction.connectInvoked ∉ (handleClosedFn s code).2 ∧
    GAction.connectAttempt ∉ (handleClosedFn s code).2 ∧
    (s.hasLogger = true → GAction.logThrow ∈ (handleClosedFn s code).2) ∧
    (s.hasLogger = false → (handleClosedFn s code).2 = []) := by
  rcases h with rfl | rfl | rfl | rfl | rfl | rfl <;>
    cases hlog : s.hasLogger <;>
      simp [handleClosedFn, logIf, hlog]

theorem c6_fatal_no_reconnect_witness :
    GAction.connectInvoked ∉ (handleClosedFn c6wit 4004).2 ∧
    GAction.logThrow ∈ (handleClosedFn c6wit 4004).2 :=
  ⟨(c6_fatal_no_reconnect c6wit 4004 (Or.inl rfl)).1,
   (c6_fatal_no_reconnect c6wit 4004 (Or.inl rfl)).2.2.1 rfl⟩

/-- C6 counterexample: with debug logging disabled, a fatal close (4004)
performs no action at all — in particular it reports no terminal error —
refuting the claim that the shard always reports a terminal error on a
fatal-class close. -/
theorem c6_counterexample :
    c6cex.hasLogger = false ∧
    (handleClosedFn c6cex 4004).2 = [] ∧
    GAction.logThrow ∉ (handleClosedFn c6cex 4004).2 := by
  decide

/-- C7: under the at-most-one-timer invariant, Hello handling, connect, close
and close handling all preserve the invariant (each cancels the existing
timer before arming a new one), and after processing a Hello packet exactly
one timer is active, armed at the interval carried by that Hello. -/
theorem c7_single_timer (s : ShardState) (ps : Option Int) (ivl now : Int)
    (code : Nat) (hInv : TimerInv s) :
    TimerInv (helloFn s ps ivl now).1 ∧
    TimerInv (connectFn s).1 ∧
    TimerInv (closeFn s code).1 ∧
    TimerInv (handleClosedFn s code).1 ∧
    ((helloFn s ps ivl now).1).timers.active.map Prod.snd = [ivl] := by
  obtain ⟨hact, hnode⟩ := helloFn_timers s ps ivl now hInv
  refine ⟨⟨?_, ?_⟩, ?_, ?_, handleClosedFn_inv s code hInv, ?_⟩
  · rw [hact]
    simp
  · intro p hp
    rw [hact] at hp
    simp only [List.mem_singleton] at hp
    rw [hp, hnode]
  · cases hws : s.wsOpen
    · have he : ((connectFn s).1) =
          { s with timers := clearIntervalFn s.heart.nodeInterval s.timers } := by
        simp [connectFn, hws]
      rw [he]
      exact active_nil_inv _ (by simpa using timerInv_clear s hInv)
    · have he : ((connectFn s).1) = s := by
        simp [connectFn, hws]
      rw [he]
      exact hInv
  · apply active_nil_inv
    rw [(closeFn_timers s code).1]
    exact timerInv_clear s hInv
  · rw [hact]
    simp

theorem c7_single_timer_witness :
    TimerInv c7state ∧
    (TimerInv (helloFn c7state none 25000 0).1 ∧
     TimerInv (connectFn c7state).1 ∧
     TimerInv (closeFn c7state 1000).1 ∧
     TimerInv (handleClosedFn c7state 1000).1 ∧
     ((helloFn c7state none 25000 0).1).timers.active.map Prod.snd = [25000]) :=
  ⟨by constructor <;> decide,
   c7_single_timer c7state none 25000 0 1000 (by constructor <;> decide)⟩

theorem c10_resume_frame_witness :
    resumeFrameSeq c10d1 = 0 ∧ resumeFrameSessionId c10d1 = [] ∧
    resumeFrameSeq c10d2 = 5 ∧ resumeFrameSessionId c10d2 = ['s'] :=
  ⟨(c10_resume_frame c10d1).1 rfl,
   (c10_resume_frame c10d1).2.2.1 rfl,
   (c10_resume_frame c10d2).2.1 5 rfl,
   (c10_resume_frame c10d2).2.2.2.1 ['s'] rfl⟩

end Kodcord
